import Mathlib

/-!
Verification development for the `image2plate` mobile client, focused on the
dashboard screen `src/app/(dashboard)/index.tsx`.  The screen holds its state
in React `useState` hooks; we embed it as an explicit record `DashState` and
each handler (`pickImage`, `sendToBackend`, `onLayout`, the overlay renderer)
as a pure function on that record.  JavaScript numbers are modelled as `ℚ`
(the code performs only field arithmetic, no overflow or float rounding is at
stake in the claims).  Asynchronous completions (the image-size callback, the
fetch response) are modelled as separate transition functions whose argument
is the outcome delivered by the environment.
-/

/-- A bounding box as delivered by the backend: `det.bbox = { x1, y1, x2, y2 }`. -/
structure BBox where
  x1 : ℚ
  y1 : ℚ
  x2 : ℚ
  y2 : ℚ
deriving DecidableEq, Repr

/-- One entry of the backend response array `data.detections`.  The field
`class` of the JSON object is called `className` here (`class` is reserved).
The code applies no validation, so `confidence` is an arbitrary number. -/
structure Detection where
  className : String
  confidence : ℚ
  bbox : BBox
deriving DecidableEq, Repr

/-- The on-screen box style computed for one detection:
`{ left, top, width, height }` in `renderDetectionsOverlay`. -/
structure ScreenBox where
  left : ℚ
  top : ℚ
  width : ℚ
  height : ℚ
deriving DecidableEq, Repr

/-- The dashboard screen state: the `useState` hooks of `Dashboard` that the
image/detection pipeline touches (`displayName` and `isLoggedIn` are
authentication-only and omitted).  `renderedWidth` is the only rendered
dimension the code stores; there is no rendered-height hook. -/
structure DashState where
  imageUri : Option String
  backendIP : String
  detections : List Detection
  loading : Bool
  originalWidth : ℚ
  originalHeight : ℚ
  renderedWidth : ℚ
deriving DecidableEq, Repr

/-- The per-box computation inside `renderDetectionsOverlay`:
`left = x1 * scale`, `top = y1 * scale`, `width = (x2 - x1) * scale`,
`height = (y2 - y1) * scale`, with the single factor
`scale = renderedWidth / originalWidth` supplied by the caller. -/
def mapDetection (scale : ℚ) (b : BBox) : ScreenBox :=
  { left := b.x1 * scale
  , top := b.y1 * scale
  , width := (b.x2 - b.x1) * scale
  , height := (b.y2 - b.y1) * scale }

/-- `renderDetectionsOverlay`: returns `null` (here `none`) when
`!renderedWidth || !originalWidth` (a JS number is falsy exactly when it is
zero), otherwise maps every stored detection through the single width-based
scale `renderedWidth / originalWidth`. -/
def renderDetectionsOverlay (s : DashState) : Option (List ScreenBox) :=
  if s.renderedWidth = 0 ∨ s.originalWidth = 0 then none
  else some (s.detections.map (fun det =>
    mapDetection (s.renderedWidth / s.originalWidth) det.bbox))

/-- A width/height pair, used only to state the specification-side mapper. -/
structure SizePair where
  width : ℚ
  height : ℚ
deriving DecidableEq, Repr

/-- Modelled from the spec (for comparison with the code, not from the
source): `mapToScreen` with two independent scales,
`scaleX = rendered.width / natural.width` and
`scaleY = rendered.height / natural.height`, applied as
`left = x1 * scaleX`, `top = y1 * scaleY`, `width = (x2 - x1) * scaleX`,
`height = (y2 - y1) * scaleY`. -/
def mapToScreenSpec (natural rendered : SizePair) (b : BBox) : ScreenBox :=
  { left := b.x1 * (rendered.width / natural.width)
  , top := b.y1 * (rendered.height / natural.height)
  , width := (b.x2 - b.x1) * (rendered.width / natural.width)
  , height := (b.y2 - b.y1) * (rendered.height / natural.height) }

/-- A concrete 10×10 box placed at (0, 10) in natural-pixel space. -/
def bbC1 : BBox := { x1 := 0, y1 := 10, x2 := 10, y2 := 20 }

/-- A concrete detection carrying `bbC1`. -/
def detC1 : Detection := { className := "apple", confidence := 9/10, bbox := bbC1 }

/-- A concrete state: natural size 100×200 (both positive), rendered width 50,
one stored detection. -/
def stC1 : DashState :=
  { imageUri := some "file:a.jpg", backendIP := "192.168.1.5"
  , detections := [detC1], loading := false
  , originalWidth := 100, originalHeight := 200, renderedWidth := 50 }

/-- Outcome of the camera interaction inside `pickImage`: permission denied
(alert, no state change), user cancellation (`result.canceled`, no state
change), or a captured asset with its local URI. -/
inductive PickOutcome
  | permissionDenied
  | canceled
  | captured (uri : String)
deriving DecidableEq, Repr

/-- `pickImage`: on a captured asset the code runs `setImageUri(uri)` and
`setDetections([])`; `originalWidth` and `originalHeight` are NOT touched
here — they are only overwritten later by the asynchronous
`Image.getSize` callback.  Denied permission and cancellation change
nothing. -/
def pickImage (s : DashState) (o : PickOutcome) : DashState :=
  match o with
  | PickOutcome.captured uri => { s with imageUri := some uri, detections := [] }
  | _ => s

/-- The `Image.getSize` success callback: `setOriginalWidth(width)` and
`setOriginalHeight(height)`. -/
def getSizeSuccess (s : DashState) (w h : ℚ) : DashState :=
  { s with originalWidth := w, originalHeight := h }

/-- The single HTTP request `sendToBackend` can issue: a POST of a multipart
form with one `file` field. -/
structure UploadRequest where
  url : String
  method : String
  contentType : String
  fileUri : String
  fileName : String
  fileType : String
deriving DecidableEq, Repr

/-- The request built in `sendToBackend` for backend address `ip` and image
URI `uri`. -/
def mkUploadRequest (ip uri : String) : UploadRequest :=
  { url := "http://" ++ ip ++ ":8000/detect"
  , method := "POST"
  , contentType := "multipart/form-data"
  , fileUri := uri
  , fileName := "image.jpg"
  , fileType := "image/jpeg" }

/-- The guard `if (!backendIP.trim())` of `sendToBackend`: the trimmed
string is empty — i.e. the address is falsy after trimming — exactly when
every character of the address is whitespace.  Modelled as an executable
all-whitespace test (JS `trim` removes leading and trailing whitespace, so
`trim(s) === ""` iff `s` is entirely whitespace). -/
def isBlank (s : String) : Bool :=
  s.data.all Char.isWhitespace

/-- How the synchronous prefix of `sendToBackend` ends: the `Missing IP`
alert (empty trimmed backend address), the `No Image` alert (no captured
image), or the request being dispatched with `loading` set. -/
inductive SendStartResult
  | missingIP
  | noImage
  | started (req : UploadRequest)
deriving DecidableEq, Repr

/-- The synchronous prefix of `sendToBackend`: the guard
`if (!backendIP.trim())` alerts and returns, then `if (!imageUri)` alerts
and returns, otherwise `setLoading(true)` and exactly one `fetch` is issued.
The third component lists the network requests made by the call.  Note that
`loading` is NOT consulted: the function has no in-flight guard of its own. -/
def sendToBackendStart (s : DashState) :
    SendStartResult × DashState × List UploadRequest :=
  if isBlank s.backendIP then (SendStartResult.missingIP, s, [])
  else
    match s.imageUri with
    | none => (SendStartResult.noImage, s, [])
    | some uri =>
        (SendStartResult.started (mkUploadRequest s.backendIP uri),
         { s with loading := true },
         [mkUploadRequest s.backendIP uri])

/-- What the environment delivers for the pending `fetch`: a thrown
transport error, a body on which `response.json()` throws, a non-2xx
response with an optional `error` message, or a 2xx response carrying a
`detections` array. -/
inductive UploadResponse
  | transportError
  | malformedBody
  | httpError (errMsg : Option String)
  | success (dets : List Detection)
deriving DecidableEq, Repr

/-- The continuation of `sendToBackend` once the response is known: on a 2xx
body the code runs `setDetections(data.detections)` verbatim (no
per-entry validation and no check that the image is still the one the
request was issued for); every other outcome only alerts; the `finally`
block runs `setLoading(false)` on all paths. -/
def sendToBackendComplete (s : DashState) (r : UploadResponse) : DashState :=
  match r with
  | UploadResponse.success dets => { s with detections := dets, loading := false }
  | _ => { s with loading := false }

/-- Result of pressing the `Send to Backend` button, which carries
`disabled={loading}`: while loading the press is swallowed by the disabled
button, otherwise it invokes `sendToBackend`. -/
inductive ButtonResult
  | disabledNoop
  | invoked (r : SendStartResult)
deriving DecidableEq, Repr

/-- A press of the process button: a no-op while `loading` (the button is
disabled), else the `sendToBackend` handler runs. -/
def processButtonPress (s : DashState) :
    ButtonResult × DashState × List UploadRequest :=
  if s.loading then (ButtonResult.disabledNoop, s, [])
  else
    let out := sendToBackendStart s
    (ButtonResult.invoked out.1, out.2.1, out.2.2)

/-- The `onLayout` handler of the image container:
`setRenderedWidth(e.nativeEvent.layout.width)`, unconditionally. -/
def onLayout (s : DashState) (w : ℚ) : DashState :=
  { s with renderedWidth := w }

/-- Modelled from the claim wording (for comparison with the code, not from
the source): an entry is valid when its confidence lies in [0,1] and its
bbox is not inverted (`x1 < x2` and `y1 < y2`). -/
def specValidEntry (d : Detection) : Bool :=
  decide (0 ≤ d.confidence ∧ d.confidence ≤ 1 ∧
    d.bbox.x1 < d.bbox.x2 ∧ d.bbox.y1 < d.bbox.y2)

/-- Modelled from the claim wording (for comparison with the code, not from
the source): the normalization the claim describes, dropping each invalid
entry individually and keeping the rest in order. -/
def normalizeSpec (raw : List Detection) : List Detection :=
  raw.filter specValidEntry

/-- A detection whose bbox is the full natural rectangle `w × h` with class
`c` and confidence `conf`. -/
def fullRectDet (c : String) (conf w h : ℚ) : Detection :=
  { className := c, confidence := conf
  , bbox := { x1 := 0, y1 := 0, x2 := w, y2 := h } }

/-- A detection covering the full natural rectangle of `stC2` (100×200). -/
def detFull : Detection :=
  { className := "apple", confidence := 9/10
  , bbox := { x1 := 0, y1 := 0, x2 := 100, y2 := 200 } }

/-- Natural size 100×200, rendered width 50, one full-rectangle detection. -/
def stC2 : DashState :=
  { imageUri := some "file:a.jpg", backendIP := "192.168.1.5"
  , detections := [detFull], loading := false
  , originalWidth := 100, originalHeight := 200, renderedWidth := 50 }

/-- The empty start state of the dashboard hooks (no image, IP typed in). -/
def st0 : DashState :=
  { imageUri := none, backendIP := "192.168.1.5"
  , detections := [], loading := false
  , originalWidth := 0, originalHeight := 0, renderedWidth := 0 }

/-- An entry whose confidence 3/2 lies outside [0,1]. -/
def detBad : Detection :=
  { className := "rock", confidence := 3/2
  , bbox := { x1 := 1, y1 := 1, x2 := 2, y2 := 2 } }

/-- A state with an upload already in flight (`loading = true`) for the
current image, backend address set. -/
def sInFlight : DashState :=
  { imageUri := some "file:a.jpg", backendIP := "192.168.1.5"
  , detections := [], loading := true
  , originalWidth := 100, originalHeight := 200, renderedWidth := 50 }

/-- Positive widths but natural height zero, one stored detection. -/
def stC7 : DashState :=
  { imageUri := some "file:a.jpg", backendIP := "192.168.1.5"
  , detections := [detC1], loading := false
  , originalWidth := 100, originalHeight := 0, renderedWidth := 50 }

/-- A state before the first layout pass: `renderedWidth = 0`. -/
def stNoLayout : DashState :=
  { imageUri := some "file:a.jpg", backendIP := "192.168.1.5"
  , detections := [detC1], loading := false
  , originalWidth := 100, originalHeight := 200, renderedWidth := 0 }

/-- A state whose backend address trims to the empty string. -/
def stNoIP : DashState :=
  { imageUri := some "file:a.jpg", backendIP := "  "
  , detections := [], loading := false
  , originalWidth := 100, originalHeight := 200, renderedWidth := 50 }

/-- C1 counterexample: with natural size 100×200, rendered width 50 and any
positive rendered height — take 50 — the code maps `bbC1` to top
`10 * (50/100) = 5`, whereas the claimed two-scale mapping gives top
`10 * (50/200) = 5/2`.  The code uses one width-based scale for both axes
(it stores no rendered height at all), so the claim is false. -/
theorem C1_counterexample :
    renderDetectionsOverlay stC1 = some [mapDetection (1/2) bbC1] ∧
    (mapDetection (1/2) bbC1).top = 5 ∧
    (mapToScreenSpec ⟨100, 200⟩ ⟨50, 50⟩ bbC1).top = 5/2 ∧
    mapDetection (1/2) bbC1 ≠ mapToScreenSpec ⟨100, 200⟩ ⟨50, 50⟩ bbC1 := by
  refine ⟨?_, by norm_num [mapDetection, bbC1], by norm_num [mapToScreenSpec, bbC1], ?_⟩
  · simp [renderDetectionsOverlay, stC1, detC1]
    norm_num
  · intro h
    have := congrArg ScreenBox.top h
    norm_num [mapDetection, mapToScreenSpec, bbC1] at this

/-- C1 amended: the coordinate mapping computes a single scale
`scale = renderedWidth / originalWidth` and applies it to both axes: for every
state whose guard passes (`renderedWidth ≠ 0` and `originalWidth ≠ 0`), the
overlay exists and its box for each stored detection has
`left = x1 * scale`, `top = y1 * scale`, `width = (x2 - x1) * scale`,
`height = (y2 - y1) * scale`; no vertical scale from the heights is used. -/
theorem C1_amended (s : DashState)
    (hr : s.renderedWidth ≠ 0) (ho : s.originalWidth ≠ 0) :
    ∃ boxes, renderDetectionsOverlay s = some boxes ∧
      boxes = s.detections.map (fun det =>
        mapDetection (s.renderedWidth / s.originalWidth) det.bbox) ∧
      ∀ det ∈ s.detections,
        (mapDetection (s.renderedWidth / s.originalWidth) det.bbox).left
            = det.bbox.x1 * (s.renderedWidth / s.originalWidth) ∧
        (mapDetection (s.renderedWidth / s.originalWidth) det.bbox).top
            = det.bbox.y1 * (s.renderedWidth / s.originalWidth) ∧
        (mapDetection (s.renderedWidth / s.originalWidth) det.bbox).width
            = (det.bbox.x2 - det.bbox.x1) * (s.renderedWidth / s.originalWidth) ∧
        (mapDetection (s.renderedWidth / s.originalWidth) det.bbox).height
            = (det.bbox.y2 - det.bbox.y1) * (s.renderedWidth / s.originalWidth) := by
  refine ⟨_, ?_, rfl, ?_⟩
  · simp [renderDetectionsOverlay, hr, ho]
  · intro det _
    exact ⟨rfl, rfl, rfl, rfl⟩

/-- Witness for `C1_amended` at the concrete state `stC1`. -/
theorem C1_witness :
    ∃ boxes, renderDetectionsOverlay stC1 = some boxes ∧
      boxes = stC1.detections.map (fun det =>
        mapDetection (stC1.renderedWidth / stC1.originalWidth) det.bbox) ∧
      ∀ det ∈ stC1.detections,
        (mapDetection (stC1.renderedWidth / stC1.originalWidth) det.bbox).left
            = det.bbox.x1 * (stC1.renderedWidth / stC1.originalWidth) ∧
        (mapDetection (stC1.renderedWidth / stC1.originalWidth) det.bbox).top
            = det.bbox.y1 * (stC1.renderedWidth / stC1.originalWidth) ∧
        (mapDetection (stC1.renderedWidth / stC1.originalWidth) det.bbox).width
            = (det.bbox.x2 - det.bbox.x1) * (stC1.renderedWidth / stC1.originalWidth) ∧
        (mapDetection (stC1.renderedWidth / stC1.originalWidth) det.bbox).height
            = (det.bbox.y2 - det.bbox.y1) * (stC1.renderedWidth / stC1.originalWidth) :=
  C1_amended stC1 (by norm_num [stC1]) (by norm_num [stC1])

/-- C2 counterexample: natural size 100×200 and rendered size 50×80 (all
four dimensions positive).  Mapping the full natural rectangle, the code
produces height `200 * (50/100) = 100`, not the rendered height 80: the
result is NOT the full rendered rectangle (the code never consults a
rendered height; the box equals the rendered rectangle only when the
aspect ratio is preserved). -/
theorem C2_counterexample :
    renderDetectionsOverlay stC2
      = some [{ left := 0, top := 0, width := 50, height := 100 }] ∧
    ({ left := 0, top := 0, width := 50, height := 100 } : ScreenBox)
      ≠ { left := 0, top := 0, width := 50, height := 80 } := by
  constructor
  · simp [renderDetectionsOverlay, stC2, detFull, mapDetection]
    norm_num
  · intro h
    have := congrArg ScreenBox.height h
    norm_num at this

/-- C2 amended: for every state with nonzero `renderedWidth` and
`originalWidth` whose stored detection is the full natural rectangle, the
overlay yields `left = 0`, `top = 0`, `width = renderedWidth`, and
`height = originalHeight * renderedWidth / originalWidth` — the full
rendered rectangle only when the rendered box preserves the natural aspect
ratio (the code tracks no rendered height). -/
theorem C2_amended (s : DashState) (c : String) (conf : ℚ)
    (hdet : s.detections = [fullRectDet c conf s.originalWidth s.originalHeight])
    (hr : s.renderedWidth ≠ 0) (ho : s.originalWidth ≠ 0) :
    renderDetectionsOverlay s = some
      [{ left := 0, top := 0, width := s.renderedWidth,
         height := s.originalHeight * s.renderedWidth / s.originalWidth }] := by
  simp [renderDetectionsOverlay, hr, ho, hdet, mapDetection, fullRectDet,
    ScreenBox.mk.injEq]
  constructor
  · field_simp
  · ring

/-- Witness for `C2_amended` at the concrete state `stC2`. -/
theorem C2_witness :
    renderDetectionsOverlay stC2 = some
      [{ left := 0, top := 0, width := stC2.renderedWidth,
         height := stC2.originalHeight * stC2.renderedWidth / stC2.originalWidth }] :=
  C2_amended stC2 "apple" (9/10) rfl
    (by norm_num [stC2]) (by norm_num [stC2])

/-- C3 counterexample: from the empty state, capture image `a`, start the
upload (one request is issued for `a`), capture image `b` while the upload
is pending, then receive the late 2xx response.  The session handle is now
`b`, not the `a` the request was issued for, yet the response detections
ARE applied: the final `detections` is `[detC1]`, not `[]` as the claim
requires. -/
theorem C3_counterexample :
    (sendToBackendStart (pickImage st0 (PickOutcome.captured "a"))).2.2
      = [mkUploadRequest "192.168.1.5" "a"] ∧
    (mkUploadRequest "192.168.1.5" "a").fileUri = "a" ∧
    (pickImage (sendToBackendStart (pickImage st0 (PickOutcome.captured "a"))).2.1
        (PickOutcome.captured "b")).imageUri = some "b" ∧
    some "b" ≠ some "a" ∧
    (sendToBackendComplete
        (pickImage (sendToBackendStart (pickImage st0 (PickOutcome.captured "a"))).2.1
          (PickOutcome.captured "b"))
        (UploadResponse.success [detC1])).detections = [detC1] ∧
    [detC1] ≠ ([] : List Detection) := by
  have htrim : isBlank "192.168.1.5" = false := by decide
  refine ⟨?_, rfl, ?_, by simp, ?_, by simp⟩
  · simp [pickImage, sendToBackendStart, st0, htrim]
  · simp [pickImage, sendToBackendStart, st0, htrim]
  · simp [pickImage, sendToBackendStart, sendToBackendComplete, st0, htrim]

/-- C3 amended: the response handler performs no handle check — even when
the current `imageUri` differs from the handle the request was issued for,
a late successful response has its detections applied to the session. -/
theorem C3_amended (s : DashState) (issuedFor : String)
    (dets : List Detection) (_hne : s.imageUri ≠ some issuedFor) :
    (sendToBackendComplete s (UploadResponse.success dets)).detections = dets :=
  rfl

/-- Witness for `C3_amended`: `stC2` holds image `file:a.jpg`, which differs
from the handle `other.jpg` an upload was issued for; the late response is
still applied. -/
theorem C3_witness :
    (sendToBackendComplete stC2 (UploadResponse.success [detC1])).detections
      = [detC1] :=
  C3_amended stC2 "other.jpg" [detC1] (by simp [stC2])

/-- C4 counterexample: a 2xx response whose array holds the valid `detC1`
and the invalid `detBad` (confidence 3/2 is outside [0,1]).  The claimed
normalization would keep only `[detC1]`, but the code stores the raw array
verbatim, invalid entry included. -/
theorem C4_counterexample :
    (sendToBackendComplete st0 (UploadResponse.success [detC1, detBad])).detections
      = [detC1, detBad] ∧
    normalizeSpec [detC1, detBad] = [detC1] ∧
    [detC1, detBad] ≠ [detC1] := by
  have h1 : specValidEntry detC1 = true := by
    rw [specValidEntry, decide_eq_true_eq]
    norm_num [detC1, bbC1]
  have h2 : specValidEntry detBad = false := by
    rw [specValidEntry, decide_eq_false_iff_not]
    norm_num [detBad]
  refine ⟨rfl, ?_, by simp⟩
  simp [normalizeSpec, List.filter, h1, h2]

/-- C4 amended: the code performs no normalization at all — a successful
response body has its `detections` array stored exactly as received, with
no entry dropped regardless of validity. -/
theorem C4_amended (s : DashState) (raw : List Detection) :
    (sendToBackendComplete s (UploadResponse.success raw)).detections = raw :=
  rfl

/-- C5 counterexample: in `sInFlight` an upload is already in flight
(`loading = true`) for the current handle, yet invoking `sendToBackend` a
second time does NOT fail — it issues a second network request (the
function never consults `loading`, and no `AlreadyInProgress` error exists
anywhere in the code). -/
theorem C5_counterexample :
    sInFlight.loading = true ∧
    (sendToBackendStart sInFlight).2.2.length = 1 ∧
    (sendToBackendStart sInFlight).1
      = SendStartResult.started (mkUploadRequest "192.168.1.5" "file:a.jpg") := by
  have htrim : isBlank "192.168.1.5" = false := by decide
  refine ⟨rfl, ?_, ?_⟩ <;> simp [sendToBackendStart, sInFlight, htrim]

/-- C5 amended: `sendToBackend` itself has no in-flight guard — invoked
directly while `loading`, it issues a second request.  Concurrent
user-initiated invocations are prevented only by the process button being
`disabled={loading}`: a second press while loading is a silent no-op (no
request, no state change, and no error of any kind — nothing like
`AlreadyInProgress` is surfaced). -/
theorem C5_amended (s : DashState) (h : s.loading = true) :
    processButtonPress s = (ButtonResult.disabledNoop, s, []) ∧
    (∀ uri, isBlank s.backendIP = false → s.imageUri = some uri →
      sendToBackendStart s
        = (SendStartResult.started (mkUploadRequest s.backendIP uri),
           { s with loading := true }, [mkUploadRequest s.backendIP uri])) := by
  constructor
  · simp [processButtonPress, h]
  · intro uri hip huri
    simp [sendToBackendStart, hip, huri]

/-- Witness for `C5_amended` at the concrete state `sInFlight`. -/
theorem C5_witness :
    processButtonPress sInFlight = (ButtonResult.disabledNoop, sInFlight, []) ∧
    sendToBackendStart sInFlight
      = (SendStartResult.started (mkUploadRequest "192.168.1.5" "file:a.jpg"),
         { sInFlight with loading := true },
         [mkUploadRequest "192.168.1.5" "file:a.jpg"]) := by
  have h := C5_amended sInFlight rfl
  exact ⟨h.1, h.2 "file:a.jpg" (by decide) rfl⟩

/-- C6 counterexample: `stC2` holds the previous image with natural size
100×200.  After a successful capture of `file:b.jpg`, the new handle is set
and the detections are cleared, but the stored natural size is still the
previous image's 100×200 — the claim that NaturalSize is cleared in the
same atomic transition is false, and the mismatched intermediate state is
observable until the asynchronous `Image.getSize` callback fires. -/
theorem C6_counterexample :
    (pickImage stC2 (PickOutcome.captured "file:b.jpg")).imageUri
      = some "file:b.jpg" ∧
    (pickImage stC2 (PickOutcome.captured "file:b.jpg")).detections = [] ∧
    (pickImage stC2 (PickOutcome.captured "file:b.jpg")).originalWidth = 100 ∧
    (pickImage stC2 (PickOutcome.captured "file:b.jpg")).originalHeight = 200 ∧
    (100 : ℚ) ≠ 0 := by
  refine ⟨rfl, rfl, rfl, rfl, by norm_num⟩

/-- C6 amended: a successful capture sets the new handle and clears the
stored detections in one transition, but leaves the stored natural size
(and everything else) untouched; the natural size is only replaced later,
when the asynchronous `Image.getSize` callback overwrites both fields. -/
theorem C6_amended (s : DashState) (uri : String) :
    (pickImage s (PickOutcome.captured uri)).imageUri = some uri ∧
    (pickImage s (PickOutcome.captured uri)).detections = [] ∧
    (pickImage s (PickOutcome.captured uri)).originalWidth = s.originalWidth ∧
    (pickImage s (PickOutcome.captured uri)).originalHeight = s.originalHeight ∧
    (pickImage s (PickOutcome.captured uri)).renderedWidth = s.renderedWidth ∧
    (pickImage s (PickOutcome.captured uri)).loading = s.loading ∧
    (∀ w h, (getSizeSuccess (pickImage s (PickOutcome.captured uri)) w h).originalWidth = w ∧
      (getSizeSuccess (pickImage s (PickOutcome.captured uri)) w h).originalHeight = h) :=
  ⟨rfl, rfl, rfl, rfl, rfl, rfl, fun _ _ => ⟨rfl, rfl⟩⟩

/-- C7 counterexample: `stC7` has positive widths but natural HEIGHT zero
(so not all four dimensions are strictly positive), yet the overlay is
produced, not "unavailable": the guard checks only `renderedWidth` and
`originalWidth`, and neither height enters the computation. -/
theorem C7_counterexample :
    stC7.originalHeight = 0 ∧
    0 < stC7.originalWidth ∧
    0 < stC7.renderedWidth ∧
    renderDetectionsOverlay stC7 ≠ none := by
  refine ⟨rfl, by norm_num [stC7], by norm_num [stC7], ?_⟩
  simp [renderDetectionsOverlay, stC7]

/-- C7 amended: the overlay is withheld exactly when `renderedWidth = 0` or
`originalWidth = 0` (the two JS-falsy guards); the heights are never
consulted, and whenever boxes are produced the sole divisor
`originalWidth` is nonzero, so no division by zero occurs. -/
theorem C7_amended (s : DashState) :
    (renderDetectionsOverlay s = none ↔
      s.renderedWidth = 0 ∨ s.originalWidth = 0) ∧
    (∀ boxes, renderDetectionsOverlay s = some boxes → s.originalWidth ≠ 0) := by
  constructor
  · by_cases h : s.renderedWidth = 0 ∨ s.originalWidth = 0 <;>
      simp [renderDetectionsOverlay, h]
  · intro boxes hboxes
    by_cases h : s.renderedWidth = 0 ∨ s.originalWidth = 0
    · simp [renderDetectionsOverlay, h] at hboxes
    · exact fun h0 => h (Or.inr h0)

/-- Witness for `C7_amended`: before the first layout pass
(`renderedWidth = 0`) no overlay is produced, and at `stC1` the produced
overlay certifies a nonzero divisor. -/
theorem C7_witness :
    renderDetectionsOverlay stNoLayout = none ∧ stC1.originalWidth ≠ 0 := by
  constructor
  · exact (C7_amended stNoLayout).1.mpr (Or.inl rfl)
  · refine (C7_amended stC1).2 [mapDetection (1/2) bbC1] ?_
    simp [renderDetectionsOverlay, stC1, detC1]
    norm_num

/-- C8 confirmed: `sendToBackend` first checks the endpoint — a blank
backend address fails with the `Missing IP` alert (the ConfigError of the
spec) before any network attempt (the request list is empty and the state
untouched); with an endpoint but no image it fails with the `No Image`
alert (the NoImage of the spec), again with no network attempt; when both
preconditions hold it issues exactly one multipart POST to
`http://ip:8000/detect` and retries nothing. -/
theorem C8_ok (s : DashState) :
    (isBlank s.backendIP = true →
      sendToBackendStart s = (SendStartResult.missingIP, s, [])) ∧
    (isBlank s.backendIP = false → s.imageUri = none →
      sendToBackendStart s = (SendStartResult.noImage, s, [])) ∧
    (∀ uri, isBlank s.backendIP = false → s.imageUri = some uri →
      (sendToBackendStart s).2.2 = [mkUploadRequest s.backendIP uri] ∧
      (mkUploadRequest s.backendIP uri).method = "POST" ∧
      (mkUploadRequest s.backendIP uri).contentType = "multipart/form-data" ∧
      (mkUploadRequest s.backendIP uri).url
        = "http://" ++ s.backendIP ++ ":8000/detect" ∧
      (mkUploadRequest s.backendIP uri).fileName = "image.jpg" ∧
      (mkUploadRequest s.backendIP uri).fileType = "image/jpeg") := by
  refine ⟨?_, ?_, ?_⟩
  · intro hip
    simp [sendToBackendStart, hip]
  · intro hip himg
    simp [sendToBackendStart, hip, himg]
  · intro uri hip himg
    refine ⟨?_, rfl, rfl, rfl, rfl, rfl⟩
    simp [sendToBackendStart, hip, himg]

/-- Witness for `C8_ok` at concrete states: a blank address (`stNoIP`), an
address but no image (`st0`), and both preconditions met (`stC1`). -/
theorem C8_witness :
    sendToBackendStart stNoIP = (SendStartResult.missingIP, stNoIP, []) ∧
    sendToBackendStart st0 = (SendStartResult.noImage, st0, []) ∧
    (sendToBackendStart stC1).2.2
      = [mkUploadRequest "192.168.1.5" "file:a.jpg"] := by
  refine ⟨(C8_ok stNoIP).1 (by decide), (C8_ok st0).2.1 (by decide) rfl, ?_⟩
  exact ((C8_ok stC1).2.2 "file:a.jpg" (by decide) rfl).1

/-- C9 confirmed: `onLayout` stores the measured width unconditionally (the
last write wins over any previously stored value), and it is idempotent —
storing the measurement the state already holds changes nothing, and
repeating the same call is absorbed. -/
theorem C9_ok (s : DashState) (w : ℚ) :
    (onLayout s w).renderedWidth = w ∧
    onLayout (onLayout s w) w = onLayout s w ∧
    (∀ v, onLayout (onLayout s v) w = onLayout s w) ∧
    (s.renderedWidth = w → onLayout s w = s) := by
  refine ⟨rfl, rfl, fun v => rfl, ?_⟩
  intro h
  cases s
  simp_all [onLayout]

/-- Witness for `C9_ok`: at `stC1` (stored rendered width 50) a repeated
identical measurement of 50 leaves the state unchanged. -/
theorem C9_witness :
    (onLayout stC1 50).renderedWidth = 50 ∧ onLayout stC1 50 = stC1 := by
  have h := C9_ok stC1 50
  exact ⟨h.1, h.2.2.2 rfl⟩

/-- C10 confirmed: on every error path of `sendToBackend` — a thrown
transport error, a body on which `response.json()` throws, or a non-2xx
response — the stored detections and the current image URI are left
unchanged, and the `finally` block leaves `loading` false once the call
completes. -/
theorem C10_ok (s : DashState) (r : UploadResponse)
    (herr : ∀ dets, r ≠ UploadResponse.success dets) :
    (sendToBackendComplete s r).detections = s.detections ∧
    (sendToBackendComplete s r).imageUri = s.imageUri ∧
    (sendToBackendComplete s r).loading = false := by
  cases r with
  | transportError => exact ⟨rfl, rfl, rfl⟩
  | malformedBody => exact ⟨rfl, rfl, rfl⟩
  | httpError m => exact ⟨rfl, rfl, rfl⟩
  | success dets => exact absurd rfl (herr dets)

/-- Witness for `C10_ok`: a transport failure at `stC1` leaves the
detections and image URI intact and ends with `loading = false`. -/
theorem C10_witness :
    (sendToBackendComplete stC1 UploadResponse.transportError).detections
      = stC1.detections ∧
    (sendToBackendComplete stC1 UploadResponse.transportError).imageUri
      = stC1.imageUri ∧
    (sendToBackendComplete stC1 UploadResponse.transportError).loading = false :=
  C10_ok stC1 UploadResponse.transportError (fun dets h => by cases h)
